import Mathlib

/-!
Verification of the a2a datetime parser agent's temporal resolver.

This file gives a shallow embedding of the temporal expression resolver of
the repository (`src/app/utils/datetime.py` and the element decomposition in
`src/app/server_mcp.py`) and proves/refutes the frozen specification claims
about it.

Conventions of the embedding:
* Python `datetime` values are modelled by the `DateTime` structure over `Int`
  fields together with a validity predicate (`DateTime.valid`) that mirrors
  the ranges enforced by Python's `datetime` (years 1..9999, calendar-valid
  day of month, time fields in range).
* Operations that may raise `ValueError`/`OverflowError` in Python
  (`datetime(...)` construction, `.replace(...)`, `+ timedelta(...)` leaving
  the supported year range) return `Option DateTime`; `none` models the raise.
* `//` and `%` of Python (floor division / nonnegative remainder) are `Int`'s
  `/` and `%` (Euclidean division, which agrees with Python's floor division
  for the positive divisors used by the source).
* Day arithmetic (`timedelta(days=...)` etc.) is modelled by converting the
  date to a day count with the standard proleptic-Gregorian civil-from-days /
  days-from-civil algorithms, as Python's `datetime` does internally.
-/

/-! ## Calendar arithmetic (model of Python's `datetime` internals) -/

def isLeapYear (y : Int) : Bool :=
  (y % 4 == 0 && y % 100 != 0) || y % 400 == 0

def daysInMonth (y m : Int) : Int :=
  if m == 2 then (if isLeapYear y then 29 else 28)
  else if m == 4 || m == 6 || m == 9 || m == 11 then 30
  else 31

/-- Day number of a proleptic Gregorian date (days since 1970-01-01,
    standard civil-from-days algorithm). -/
def daysFromCivil (y m d : Int) : Int :=
  let y1 := if m ≤ 2 then y - 1 else y
  let era := y1 / 400
  let yoe := y1 - era * 400
  let mp := (m + 9) % 12
  let doy := (153 * mp + 2) / 5 + d - 1
  let doe := yoe * 365 + yoe / 4 - yoe / 100 + doy
  era * 146097 + doe - 719468

/-- Inverse of `daysFromCivil`: the `(year, month, day)` of a day number. -/
def civilFromDays (z : Int) : Int × Int × Int :=
  let z1 := z + 719468
  let era := z1 / 146097
  let doe := z1 - era * 146097
  let yoe := (doe - doe / 1460 + doe / 36524 - doe / 146096) / 365
  let y1 := yoe + era * 400
  let doy := doe - (365 * yoe + yoe / 4 - yoe / 100)
  let mp := (5 * doy + 2) / 153
  let d := doy - (153 * mp + 2) / 5 + 1
  let m := mp + (if mp < 10 then 3 else -9)
  (if m ≤ 2 then y1 + 1 else y1, m, d)

/-! ## The `DateTime` value model -/

structure DateTime where
  year : Int
  month : Int
  day : Int
  hour : Int
  minute : Int
  second : Int
  microsecond : Int
deriving DecidableEq, Repr

/-- The validity ranges Python's `datetime` enforces on construction and on
    every `.replace`. -/
def DateTime.valid (d : DateTime) : Bool :=
  decide (1 ≤ d.year) && decide (d.year ≤ 9999) &&
  decide (1 ≤ d.month) && decide (d.month ≤ 12) &&
  decide (1 ≤ d.day) && decide (d.day ≤ daysInMonth d.year d.month) &&
  decide (0 ≤ d.hour) && decide (d.hour ≤ 23) &&
  decide (0 ≤ d.minute) && decide (d.minute ≤ 59) &&
  decide (0 ≤ d.second) && decide (d.second ≤ 59) &&
  decide (0 ≤ d.microsecond) && decide (d.microsecond ≤ 999999)

/-- Return the value if it is a valid Python datetime, else `none`
    (modelling the `ValueError` raise). -/
def ensureValid (d : DateTime) : Option DateTime :=
  if d.valid then some d else none

/-- Model of the `datetime(year, month, day, hour, minute, second)`
    constructor (microsecond defaulted to 0). -/
def mkDateTime (y m d h mi s : Int) : Option DateTime :=
  ensureValid ⟨y, m, d, h, mi, s, 0⟩

/-- Model of Python's `datetime.replace` with keyword arguments: `none`
    leaves the field untouched, `some v` sets it; the result is validated. -/
def DateTime.replace (dt : DateTime) (y m d h mi s us : Option Int) : Option DateTime :=
  ensureValid ⟨y.getD dt.year, m.getD dt.month, d.getD dt.day,
               h.getD dt.hour, mi.getD dt.minute, s.getD dt.second,
               us.getD dt.microsecond⟩

def DateTime.toDayNumber (dt : DateTime) : Int :=
  daysFromCivil dt.year dt.month dt.day

/-- `dt + timedelta(days=n)`: true elapsed-time addition; `none` models the
    `OverflowError` when the result leaves the supported year range. -/
def DateTime.addDays (dt : DateTime) (n : Int) : Option DateTime :=
  let c := civilFromDays (dt.toDayNumber + n)
  ensureValid ⟨c.1, c.2.1, c.2.2, dt.hour, dt.minute, dt.second, dt.microsecond⟩

/-- `dt + timedelta(hours=n)`. -/
def DateTime.addHours (dt : DateTime) (n : Int) : Option DateTime :=
  let total := dt.toDayNumber * 24 + dt.hour + n
  let c := civilFromDays (total / 24)
  ensureValid ⟨c.1, c.2.1, c.2.2, total % 24, dt.minute, dt.second, dt.microsecond⟩

/-- `dt + timedelta(minutes=n)`. -/
def DateTime.addMinutes (dt : DateTime) (n : Int) : Option DateTime :=
  let total := dt.toDayNumber * 1440 + dt.hour * 60 + dt.minute + n
  let c := civilFromDays (total / 1440)
  ensureValid ⟨c.1, c.2.1, c.2.2, (total % 1440) / 60,
               total % 60, dt.second, dt.microsecond⟩

/-- Model of `datetime(current.year, current.month, current.day, current.hour,
    current.minute, current.second)`: truncation of `current` to whole
    seconds (lines 132-135 and 326-327 of `src/app/utils/datetime.py`). -/
def truncToSecond (c : DateTime) : Option DateTime :=
  mkDateTime c.year c.month c.day c.hour c.minute c.second

/-- `strftime('%Y-%m-%dT%H:%M:%S')`. -/
def pad2 (n : Int) : String :=
  if n < 10 then "0" ++ toString n else toString n

def pad4 (n : Int) : String :=
  if n < 10 then "000" ++ toString n
  else if n < 100 then "00" ++ toString n
  else if n < 1000 then "0" ++ toString n
  else toString n

def strftimeISO (d : DateTime) : String :=
  pad4 d.year ++ "-" ++ pad2 d.month ++ "-" ++ pad2 d.day ++ "T" ++
  pad2 d.hour ++ ":" ++ pad2 d.minute ++ ":" ++ pad2 d.second

/-! ## Temporal spec data model (`src/app/utils/datetime.py`, pydantic models) -/

structure AbsoluteTime where
  year : Option Int
  month : Option Int
  day : Option Int
  hour : Option Int
  minute : Option Int
deriving DecidableEq, Repr

structure RelativeTime where
  year : Option Int
  month : Option Int
  day : Option Int
  hour : Option Int
  minute : Option Int
deriving DecidableEq, Repr

/-- Modelled from the spec: `WeekdayOffset` (a weekday name plus an integer
    occurrence offset) is imported by `src/app/server_mcp.py` from
    `app.utils.datetime` but its definition is absent from the source copy of
    that module; §3 of the spec defines it as a weekday name plus an integer
    occurrence offset. -/
structure WeekdayOffset where
  name : String
  offset : Int
deriving DecidableEq, Repr

/-- `AbsoluteTime()` with no arguments: all fields unset. -/
def AbsoluteTime.empty : AbsoluteTime := ⟨none, none, none, none, none⟩

/-- `RelativeTime()` with no arguments: all fields unset. -/
def RelativeTime.empty : RelativeTime := ⟨none, none, none, none, none⟩

/-- `TimeSingle` of the source.  `TimeRangeDate` has the identical shape and
    is an alias below.  The `weekday` field is modelled from the spec (§3
    lists `TimeSingle = {absolute?, relative?, weekday?, now?}` and
    `src/app/server_mcp.py` constructs it with a `weekday=` argument), while
    the source copy of `app/utils/datetime.py` omits it. -/
structure TimeSingle where
  absolute : Option AbsoluteTime
  relative : Option RelativeTime
  now : Option Bool
  weekday : Option WeekdayOffset
deriving DecidableEq, Repr

abbrev TimeRangeDate := TimeSingle

structure TimeRange where
  start_date : TimeRangeDate
  end_date : TimeRangeDate
deriving DecidableEq, Repr

structure ComputedDateTime where
  now : Option Bool
  datetime : Option String
deriving DecidableEq, Repr

structure TimeInputPayload where
  time_single : Option TimeSingle
  time_range : Option TimeRange
deriving DecidableEq, Repr

/-- `TimeConvertedPayload`; the source's `time_range` dict with keys
    `start_date`/`end_date` is modelled as a pair (start, end). -/
structure TimeConvertedPayload where
  parsable : Bool
  reason : Option String
  time_single : Option ComputedDateTime
  time_range : Option (ComputedDateTime × ComputedDateTime)
deriving DecidableEq, Repr

/-! ## Resolver helpers (`is_empty_time_object`, `has_time_units`) -/

def anyAbsSet (a : AbsoluteTime) : Bool :=
  a.year.isSome || a.month.isSome || a.day.isSome || a.hour.isSome || a.minute.isSome

def anyRelSet (r : RelativeTime) : Bool :=
  r.year.isSome || r.month.isSome || r.day.isSome || r.hour.isSome || r.minute.isSome

/-- `is_empty_time_object` (lines 99-115): `None` is empty; a truthy `now`
    is never empty; otherwise empty iff no absolute and no relative field is
    set.  (Python's `if time_obj.now:` is a truthiness test, so only
    `now == True` counts.) -/
def is_empty_time_object (t : Option TimeSingle) : Bool :=
  match t with
  | none => true
  | some t =>
    if t.now == some true then false
    else if (match t.absolute with | some a => anyAbsSet a | none => false) then false
    else if (match t.relative with | some r => anyRelSet r | none => false) then false
    else true

/-- `has_time_units` (lines 117-124). -/
def has_time_units (t : Option TimeSingle) : Bool :=
  match t with
  | none => false
  | some t =>
    let a := t.absolute.getD AbsoluteTime.empty
    let r := t.relative.getD RelativeTime.empty
    a.hour.isSome || a.minute.isSome || r.hour.isSome || r.minute.isSome

/-! ## Relative shifts (lines 146-174 and 329-346; the two code sites apply
    the identical sequence of operations, embedded once here) -/

def stepRelYear (r : RelativeTime) (dt : DateTime) : Option DateTime :=
  match r.year with
  | none => some dt
  | some y => dt.replace (some (dt.year + y)) none none none none none none

/-- Relative month offset: add to the month, then re-derive year and month
    with overflow carry (`(new_month - 1) // 12`, `(new_month - 1) % 12 + 1`). -/
def stepRelMonth (r : RelativeTime) (dt : DateTime) : Option DateTime :=
  match r.month with
  | none => some dt
  | some m =>
    let newMonth := dt.month + m
    dt.replace (some (dt.year + (newMonth - 1) / 12))
               (some ((newMonth - 1) % 12 + 1)) none none none none none

def stepRelDay (r : RelativeTime) (dt : DateTime) : Option DateTime :=
  match r.day with
  | none => some dt
  | some n => dt.addDays n

def stepRelHour (r : RelativeTime) (dt : DateTime) : Option DateTime :=
  match r.hour with
  | none => some dt
  | some n => dt.addHours n

def stepRelMinute (r : RelativeTime) (dt : DateTime) : Option DateTime :=
  match r.minute with
  | none => some dt
  | some n => dt.addMinutes n

def applyRelative (r : Option RelativeTime) (dt : DateTime) : Option DateTime :=
  match r with
  | none => some dt
  | some r =>
    (stepRelYear r dt).bind fun dt =>
    (stepRelMonth r dt).bind fun dt =>
    (stepRelDay r dt).bind fun dt =>
    (stepRelHour r dt).bind fun dt =>
    stepRelMinute r dt

/-! ## Absolute overrides (lines 176-193 and 348-361) -/

def stepAbsYear (a : AbsoluteTime) (dt : DateTime) : Option DateTime :=
  match a.year with
  | none => some dt
  | some y => dt.replace (some y) none none none none none none

def stepAbsMonth (a : AbsoluteTime) (dt : DateTime) : Option DateTime :=
  match a.month with
  | none => some dt
  | some m => dt.replace none (some m) none none none none none

def stepAbsDay (a : AbsoluteTime) (dt : DateTime) : Option DateTime :=
  match a.day with
  | none => some dt
  | some d => dt.replace none none (some d) none none none none

/-- If either absolute hour or minute is present, overwrite both together
    (hour defaults to the current hour, minute to `0` when an absolute hour
    was given and to the current minute otherwise) and zero seconds and
    microseconds (lines 188-193 / 358-361). -/
def stepAbsTime (a : AbsoluteTime) (dt : DateTime) : Option DateTime :=
  match a.hour, a.minute with
  | none, none => some dt
  | _, _ =>
    let h := match a.hour with | some h => h | none => dt.hour
    let m := match a.minute with
             | some m => m
             | none => match a.hour with | some _ => 0 | none => dt.minute
    dt.replace none none none (some h) (some m) (some 0) (some 0)

def applyAbsolute (a : Option AbsoluteTime) (dt : DateTime) : Option DateTime :=
  match a with
  | none => some dt
  | some a =>
    (stepAbsYear a dt).bind fun dt =>
    (stepAbsMonth a dt).bind fun dt =>
    (stepAbsDay a dt).bind fun dt =>
    stepAbsTime a dt

/-! ## `compute_date_time` (lines 312-371) -/

/-- The arithmetic of `compute_date_time` before formatting: truncate the
    reference instant to seconds, apply relative shifts, then absolute
    overrides. -/
def computeDTCore (t : TimeSingle) (current : DateTime) : Option DateTime :=
  (truncToSecond current).bind fun dt =>
  (applyRelative t.relative dt).bind fun dt =>
  applyAbsolute t.absolute dt

def compute_date_time (t : TimeSingle) (current : DateTime) : Option ComputedDateTime :=
  if t.now == some true then some ⟨some true, none⟩
  else (computeDTCore t current).map fun d => ⟨none, some (strftimeISO d)⟩

/-! ## `build_expanded_endpoint` (lines 126-238)

The source carries a `base_start`/`base_end` pair through lines 132-193 but
applies the identical operation to both components at every step, so the two
are equal up to the expansion branch; the embedding carries the single shared
value `base` and splits at the branch, exactly where the source's two copies
first diverge. -/

/-- `replace(hour=0, minute=0, second=0, microsecond=0)` target value. -/
def startOfDayV (b : DateTime) : DateTime :=
  ⟨b.year, b.month, b.day, 0, 0, 0, 0⟩

/-- `replace(hour=23, minute=59, second=59, microsecond=999000)` target value. -/
def endOfDayV (b : DateTime) : DateTime :=
  ⟨b.year, b.month, b.day, 23, 59, 59, 999000⟩

/-- Lines 220-223: roll to the first day of the next month, then subtract
    one day, giving the last day of `b`'s month. -/
def lastDayRoll (b : DateTime) : Option DateTime :=
  (if b.month == 12 then mkDateTime (b.year + 1) 1 1 0 0 0
   else mkDateTime b.year (b.month + 1) 1 0 0 0).bind fun firstNext =>
  firstNext.addDays (-1)

/-- `has_day` flag of lines 196-198. -/
def specHasDay (t : TimeSingle) : Bool :=
  (t.absolute.getD AbsoluteTime.empty).day.isSome ||
  (t.relative.getD RelativeTime.empty).day.isSome

/-- `has_month` flag of line 199. -/
def specHasMonth (t : TimeSingle) : Bool :=
  (t.absolute.getD AbsoluteTime.empty).month.isSome ||
  (t.relative.getD RelativeTime.empty).month.isSome

/-- `has_year` flag of line 200. -/
def specHasYear (t : TimeSingle) : Bool :=
  (t.absolute.getD AbsoluteTime.empty).year.isSome ||
  (t.relative.getD RelativeTime.empty).year.isSome

/-- The special-case test of lines 203-206: only `relative.day = 0` is set
    among the date-level fields. -/
def isDayZeroSpecial (t : TimeSingle) : Bool :=
  let a := t.absolute.getD AbsoluteTime.empty
  let r := t.relative.getD RelativeTime.empty
  specHasDay t && !specHasMonth t && !specHasYear t &&
  (r.day == some 0) && a.day == none &&
  r.month == none && r.year == none && a.month == none && a.year == none

/-- Shared prefix of `build_expanded_endpoint` (lines 132-193): truncate the
    reference instant, apply relative shifts, apply absolute overrides. -/
def expandBase (t : TimeSingle) (current : DateTime) : Option DateTime :=
  (truncToSecond current).bind fun b =>
  (applyRelative t.relative b).bind fun b =>
  applyAbsolute t.absolute b

/-- The arithmetic of `build_expanded_endpoint` after the `now` check and
    before formatting (lines 132-237). -/
def buildExpandedCore (tObj : Option TimeRangeDate) (isStart : Bool)
    (current : DateTime) : Option DateTime :=
  match tObj with
  | none =>
    -- lines 137-144: no object provided -> full current day
    (truncToSecond current).bind fun b =>
    if isStart then b.replace none none none (some 0) (some 0) (some 0) (some 0)
    else b.replace none none none (some 23) (some 59) (some 59) (some 999000)
  | some t =>
    (expandBase t current).bind fun b =>
    if isDayZeroSpecial t then
      -- lines 202-209: return the current computed moment, not a full day
      some b
    else if specHasDay t then
      if isStart then b.replace none none none (some 0) (some 0) (some 0) (some 0)
      else b.replace none none none (some 23) (some 59) (some 59) (some 999000)
    else if specHasMonth t then
      if isStart then b.replace none none (some 1) (some 0) (some 0) (some 0) (some 0)
      else
        (lastDayRoll b).bind fun lastDay =>
        b.replace none none (some lastDay.day) (some 23) (some 59) (some 59) (some 999000)
    else if specHasYear t then
      if isStart then b.replace none (some 1) (some 1) (some 0) (some 0) (some 0) (some 0)
      else b.replace none (some 12) (some 31) (some 23) (some 59) (some 59) (some 999000)
    else
      if isStart then b.replace none none none (some 0) (some 0) (some 0) (some 0)
      else b.replace none none none (some 23) (some 59) (some 59) (some 999000)

def build_expanded_endpoint (tObj : Option TimeRangeDate) (isStart : Bool)
    (current : DateTime) : Option ComputedDateTime :=
  if (match tObj with | some t => t.now == some true | none => false) then
    some ⟨some true, none⟩
  else
    (buildExpandedCore tObj isStart current).map fun d => ⟨none, some (strftimeISO d)⟩

/-! ## `convert_datetime_payload` (lines 86-309; the reference instant is
    taken after the ISO-string parsing step, as a `DateTime` value) -/

def convert_datetime_payload (payload : TimeInputPayload) (current : DateTime) :
    Option TimeConvertedPayload :=
  match payload.time_single, payload.time_range with
  | none, none =>
    some ⟨false, some "No datetime information provided in the input", none, none⟩
  | some ts, _ =>
    if is_empty_time_object (some ts) then
      some ⟨false, some "time_single is empty or contains no datetime data", none, none⟩
    else
      (compute_date_time ts current).map fun r => ⟨true, none, some r, none⟩
  | none, some tr =>
    let startEmpty := is_empty_time_object (some tr.start_date)
    let endEmpty := is_empty_time_object (some tr.end_date)
    let parsable := !(startEmpty && endEmpty)
    let reason := if startEmpty && endEmpty then
        some "Both start_date and end_date are empty or contain no datetime data"
      else none
    (if has_time_units (some tr.start_date) then compute_date_time tr.start_date current
     else build_expanded_endpoint (some tr.start_date) true current).bind fun sc =>
    (if has_time_units (some tr.end_date) then compute_date_time tr.end_date current
     else build_expanded_endpoint (some tr.end_date) false current).bind fun ec =>
    some ⟨parsable, reason, none, some (sc, ec)⟩

/-! ## Element decomposition (`src/app/server_mcp.py`, `DatetimeParserTool.run`) -/

/-- Modelled from the spec: `WEEKDAY_MAP` is imported by
    `src/app/server_mcp.py` from `app.utils.datetime` but absent from the
    source copy of that module; the tool schema and spec §4.1 list the seven
    weekday names as the weekday `offset_unit` values, and the decomposer
    only ever tests membership (`unit in WEEKDAY_MAP`). -/
def WEEKDAY_MAP : List String :=
  ["sunday", "monday", "tuesday", "wednesday", "thursday", "friday", "saturday"]

def DATE_UNITS : List String := ["year", "month", "day"]

/-- One atomic time fragment as received by the tool; `.get` defaults of the
    source (`time_range` -> "start", `offset_unit` -> "", `offset_value` -> 0,
    `mode` -> None) are applied at the use sites. -/
structure TimeElement where
  mode : Option String
  time_range : Option String
  offset_unit : Option String
  offset_value : Option Int
deriving DecidableEq, Repr

/-- `_has_date_units` (lines 131-136): a date-level unit is `year`, `month`,
    `day`, or a weekday name. -/
def hasDateUnits (elements : List TimeElement) : Bool :=
  elements.any fun e =>
    let unit := e.offset_unit.getD ""
    DATE_UNITS.contains unit || WEEKDAY_MAP.contains unit

def isDateLevelElement (e : TimeElement) : Bool :=
  let unit := e.offset_unit.getD ""
  DATE_UNITS.contains unit || WEEKDAY_MAP.contains unit

/-- Date inheritance (lines 138-144): if the end group is non-empty and has
    no date-level unit, append every date-level fragment of the start group,
    re-tagged `end`. -/
def inheritEnd (startEls endEls : List TimeElement) : List TimeElement :=
  if !endEls.isEmpty && !hasDateUnits endEls then
    endEls ++ (startEls.filter isDateLevelElement).map
      (fun e => { e with time_range := some "end" })
  else endEls

def setAbsField (a : AbsoluteTime) (unit : String) (v : Int) : AbsoluteTime :=
  if unit == "year" then { a with year := some v }
  else if unit == "month" then { a with month := some v }
  else if unit == "day" then { a with day := some v }
  else if unit == "hour" then { a with hour := some v }
  else if unit == "minute" then { a with minute := some v }
  else a  -- hasattr(abs_time, unit) is false: fragment dropped

def setRelField (r : RelativeTime) (unit : String) (v : Int) : RelativeTime :=
  if unit == "year" then { r with year := some v }
  else if unit == "month" then { r with month := some v }
  else if unit == "day" then { r with day := some v }
  else if unit == "hour" then { r with hour := some v }
  else if unit == "minute" then { r with minute := some v }
  else r

/-- `build_components` (lines 147-178): fold a fragment group into an
    absolute accumulator, a relative accumulator, and a weekday offset. -/
def build_components (elements : List TimeElement) :
    Option AbsoluteTime × Option RelativeTime × Option WeekdayOffset :=
  let st := elements.foldl
    (fun (st : AbsoluteTime × RelativeTime × Option WeekdayOffset × Bool × Bool) e =>
      let (a, r, wd, hasAbs, hasRel) := st
      let unit := e.offset_unit.getD ""
      let value := e.offset_value.getD 0
      if WEEKDAY_MAP.contains unit then
        (a, r, some ⟨unit, value⟩, hasAbs, hasRel)
      else if e.mode == some "absolute" then
        (setAbsField a unit value, r, wd, true, hasRel)
      else if e.mode == some "relative" then
        (a, setRelField r unit value, wd, hasAbs, true)
      else
        (a, r, wd, hasAbs, hasRel))
    (AbsoluteTime.empty, RelativeTime.empty, none, false, false)
  ((if st.2.2.2.1 then some st.1 else none),
   (if st.2.2.2.2 then some st.2.1 else none),
   st.2.2.1)

/-- Payload assembly (lines 118-212): partition by `time_range` tag, apply
    date inheritance, build components, and wrap into the input payload. -/
def assemblePayload (els : List TimeElement) : TimeInputPayload :=
  let startEls := els.filter fun e => !(e.time_range.getD "start" == "end")
  let endEls0 := els.filter fun e => e.time_range.getD "start" == "end"
  let endEls := inheritEnd startEls endEls0
  if !endEls.isEmpty then
    let s := build_components startEls
    let e := build_components endEls
    ⟨none, some ⟨⟨s.1, s.2.1, none, s.2.2⟩, ⟨e.1, e.2.1, none, e.2.2⟩⟩⟩
  else if !startEls.isEmpty then
    let s := build_components startEls
    ⟨some ⟨s.1, s.2.1, none, s.2.2⟩, none⟩
  else
    ⟨none, none⟩

/-- The decomposer-to-resolver pipeline of `DatetimeParserTool.run` after the
    early `parsable`/empty-list exit. -/
def pipeline (els : List TimeElement) (current : DateTime) :
    Option TimeConvertedPayload :=
  convert_datetime_payload (assemblePayload els) current

/-! ## Claim-side auxiliary definitions -/

/-- March-based-year day-number encoding; `daysFromCivil` factors through it
    (see `dfc_march`). -/
def marchDays (y1 doy : Int) : Int :=
  let era := y1 / 400
  let yoe := y1 - era * 400
  era * 146097 + (yoe * 365 + yoe / 4 - yoe / 100 + doy) - 719468

/-- The order claim C2 compares against: the same arithmetic as
    `computeDTCore` but with absolute overrides applied BEFORE relative
    offsets (the reverse of the implemented order). -/
def computeDTCoreAbsoluteFirst (t : TimeSingle) (current : DateTime) : Option DateTime :=
  (truncToSecond current).bind fun dt =>
  (applyAbsolute t.absolute dt).bind fun dt =>
  applyRelative t.relative dt

/-- The span-expansion behaviour claim C5 describes for a range endpoint
    without time units, stated from the spec's words: day level expands to
    the day's boundaries, else month level to the month's boundaries (last
    day obtained by rolling to the first of the next month and subtracting
    one day), else year level to Jan 1 / Dec 31, else the full current day. -/
def expandedSpecC5 (t : TimeSingle) (b : DateTime) (isStart : Bool) : Option DateTime :=
  if specHasDay t then
    some (if isStart then startOfDayV b else endOfDayV b)
  else if specHasMonth t then
    if isStart then some ⟨b.year, b.month, 1, 0, 0, 0, 0⟩
    else (lastDayRoll b).map fun lastDay => ⟨b.year, b.month, lastDay.day, 23, 59, 59, 999000⟩
  else if specHasYear t then
    some (if isStart then ⟨b.year, 1, 1, 0, 0, 0, 0⟩ else ⟨b.year, 12, 31, 23, 59, 59, 999000⟩)
  else
    some (if isStart then startOfDayV b else endOfDayV b)

/-- Claim C7's emptiness condition, stated from the spec's words: the `now`
    flag is not set (to true), and every absolute and every relative field is
    unset. -/
def emptyTimeObjectSpec (t : TimeSingle) : Prop :=
  t.now ≠ some true ∧
  (t.absolute = none ∨ t.absolute = some AbsoluteTime.empty) ∧
  (t.relative = none ∨ t.relative = some RelativeTime.empty)

instance (t : TimeSingle) : Decidable (emptyTimeObjectSpec t) := by
  unfold emptyTimeObjectSpec; infer_instance

/-- Erase the weekday component of a time object (claim C9). -/
def eraseWeekday (t : TimeSingle) : TimeSingle :=
  { t with weekday := none }

/-- Erase every weekday component of a payload (claim C9). -/
def eraseWeekdaysPayload (p : TimeInputPayload) : TimeInputPayload :=
  ⟨p.time_single.map eraseWeekday,
   p.time_range.map fun tr => ⟨eraseWeekday tr.start_date, eraseWeekday tr.end_date⟩⟩

/-- Remove every weekday-named fragment from an element list (claim C9). -/
def removeWeekdayElements (els : List TimeElement) : List TimeElement :=
  els.filter fun e => !(WEEKDAY_MAP.contains (e.offset_unit.getD ""))

/-! ## Concrete inputs used by witnesses and counterexamples -/

def curJan1 : DateTime := ⟨2024, 1, 1, 10, 0, 0, 0⟩

def curNov15 : DateTime := ⟨2024, 11, 15, 10, 0, 0, 0⟩

def curMay15 : DateTime := ⟨2024, 5, 15, 10, 23, 45, 678⟩

def curJun3 : DateTime := ⟨2024, 6, 3, 7, 30, 15, 0⟩

def curJan31 : DateTime := ⟨2024, 1, 31, 10, 0, 0, 0⟩

def curFeb29 : DateTime := ⟨2024, 2, 29, 10, 0, 0, 0⟩

def curJan30 : DateTime := ⟨2024, 1, 30, 10, 0, 0, 0⟩

/-- `{absolute: {month: 7, day: 30}}`. -/
def specAbsJul30 : TimeSingle := ⟨some ⟨none, some 7, some 30, none, none⟩, none, none, none⟩

/-- `{absolute: {month: 7, day: 31}}`. -/
def specAbsJul31 : TimeSingle := ⟨some ⟨none, some 7, some 31, none, none⟩, none, none, none⟩

/-- `{relative: {day: 0}}` ("today"). -/
def specDayZero : TimeSingle := ⟨none, some ⟨none, none, some 0, none, none⟩, none, none⟩

/-- `{relative: {month: 3}}`. -/
def specRelMonth3 : TimeSingle := ⟨none, some ⟨none, some 3, none, none, none⟩, none, none⟩

/-- `{relative: {month: 1}}`. -/
def specRelMonth1 : TimeSingle := ⟨none, some ⟨none, some 1, none, none, none⟩, none, none⟩

/-- `{relative: {year: 1}}`. -/
def specRelYear1 : TimeSingle := ⟨none, some ⟨some 1, none, none, none, none⟩, none, none⟩

/-- `{relative: {day: 1}}`. -/
def specRelDay1 : TimeSingle := ⟨none, some ⟨none, none, some 1, none, none⟩, none, none⟩

/-- `{relative: {hour: 1}}`. -/
def specRelHour1 : TimeSingle := ⟨none, some ⟨none, none, none, some 1, none⟩, none, none⟩

/-- `{relative: {minute: 1}}`. -/
def specRelMinute1 : TimeSingle := ⟨none, some ⟨none, none, none, none, some 1⟩, none, none⟩

/-- `{relative: {year: 1, month: 1}, absolute: {day: 5}}`: the order-witness
    spec of claim C2. -/
def specC2 : TimeSingle :=
  ⟨some ⟨none, none, some 5, none, none⟩, some ⟨some 1, some 1, none, none, none⟩, none, none⟩

/-- An empty time object (no fields at all). -/
def specEmpty : TimeSingle := ⟨none, none, none, none⟩

/-- `{mode: absolute, time_range: start, offset_unit: month, offset_value: 7}`. -/
def elMonth7Start : TimeElement := ⟨some "absolute", some "start", some "month", some 7⟩

def elDay30Start : TimeElement := ⟨some "absolute", some "start", some "day", some 30⟩

def elHour2Start : TimeElement := ⟨some "absolute", some "start", some "hour", some 2⟩

def elHour5End : TimeElement := ⟨some "absolute", some "end", some "hour", some 5⟩

/-- A weekday fragment tagged `end`. -/
def elMondayEnd : TimeElement := ⟨none, some "end", some "monday", some 1⟩

def curC9 : DateTime := ⟨2024, 1, 15, 10, 0, 0, 0⟩

/-! ## Theorems: calendar correctness lemmas -/

theorem yoe_recover (yoe doy doe : Int) (h1 : 0 ≤ yoe) (h2 : yoe ≤ 399)
    (h3 : 0 ≤ doy)
    (h4 : doy ≤ 364 ∨ (doy = 365 ∧ (yoe+1) % 4 = 0 ∧ ((yoe+1) % 100 ≠ 0 ∨ yoe = 399)))
    (hdoe : doe = 365*yoe + yoe / 4 - yoe / 100 + doy) :
    (doe - doe / 1460 + doe / 36524 - doe / 146096) / 365 = yoe := by
  obtain ⟨q100, r100, hq, hr1, hr2⟩ : ∃ q r, yoe = 100*q + r ∧ 0 ≤ r ∧ r < 100 :=
    ⟨yoe / 100, yoe % 100, by omega, by omega, by omega⟩
  obtain ⟨p4, s4, hp, hs1, hs2⟩ : ∃ p s, r100 = 4*p + s ∧ 0 ≤ s ∧ s < 4 :=
    ⟨r100 / 4, r100 % 4, by omega, by omega, by omega⟩
  have hq0 : 0 ≤ q100 := by omega
  have hq3 : q100 ≤ 3 := by omega
  have hp0 : 0 ≤ p4 := by omega
  have hp24 : p4 ≤ 24 := by omega
  have hy4 : yoe / 4 = 25*q100 + p4 := by omega
  have hy100 : yoe / 100 = q100 := by omega
  have hdoe2 : doe = 36524*q100 + 1461*p4 + 365*s4 + doy := by omega
  have hleap : doy = 365 → s4 = 3 ∧ (p4 ≠ 24 ∨ q100 = 3) := by
    intro h
    rcases h4 with h4 | ⟨_, h4a, h4b⟩
    · omega
    · constructor <;> omega
  have hdoy : doy ≤ 365 := by omega
  obtain ⟨a1, ha1, ha1b, ha1c⟩ :
      ∃ a1, doe / 1460 = 25*q100 + p4 + a1 ∧ 0 ≤ a1 ∧ a1 ≤ 1 :=
    ⟨doe / 1460 - 25*q100 - p4, by omega, by omega, by omega⟩
  have ha1d : a1 = 1 ↔ 24*q100 + p4 + 365*s4 + doy ≥ 1460 := by omega
  obtain ⟨a2, ha2, ha2b, ha2c⟩ :
      ∃ a2, doe / 36524 = q100 + a2 ∧ 0 ≤ a2 ∧ a2 ≤ 1 :=
    ⟨doe / 36524 - q100, by omega, by omega, by omega⟩
  have ha2d : a2 = 1 ↔ 1461*p4 + 365*s4 + doy = 36524 := by omega
  obtain ⟨a3, ha3, ha3b, ha3c⟩ :
      ∃ a3, doe / 146096 = a3 ∧ 0 ≤ a3 ∧ a3 ≤ 1 :=
    ⟨doe / 146096, rfl, by omega, by omega⟩
  have ha3d : a3 = 1 ↔ doe = 146096 := by omega
  rw [ha1, ha2, ha3]
  clear ha1 ha2 ha3 hdoe hy4 hy100 h4
  omega

theorem cfd_marchDays (y1 doy : Int) (h3 : 0 ≤ doy)
    (h4 : doy ≤ 364 ∨ (doy = 365 ∧ (y1+1) % 4 = 0 ∧ ((y1+1) % 100 ≠ 0 ∨ (y1+1) % 400 = 0))) :
    civilFromDays (marchDays y1 doy) =
      ((if ((5*doy+2)/153) + (if (5*doy+2)/153 < 10 then 3 else -9) ≤ 2 then y1 + 1 else y1),
       ((5*doy+2)/153) + (if (5*doy+2)/153 < 10 then 3 else -9),
       doy - (153*((5*doy+2)/153)+2)/5 + 1) := by
  obtain ⟨era, yoe, hera, hyoe, hyoe0, hyoe1⟩ :
      ∃ e w, y1 / 400 = e ∧ y1 - 400*e = w ∧ 0 ≤ w ∧ w ≤ 399 :=
    ⟨y1/400, y1 - 400*(y1/400), rfl, rfl, by omega, by omega⟩
  have hz : marchDays y1 doy = era*146097 + (yoe*365 + yoe/4 - yoe/100 + doy) - 719468 := by
    simp only [marchDays]
    omega
  obtain ⟨doe, hdoe⟩ : ∃ doe, doe = yoe*365 + yoe/4 - yoe/100 + doy := ⟨_, rfl⟩
  have hdoeB : 0 ≤ doe ∧ doe ≤ 146096 := by omega
  rw [hz, civilFromDays]
  have e1 : era * 146097 + (yoe * 365 + yoe / 4 - yoe / 100 + doy) - 719468 + 719468 = era * 146097 + doe := by omega
  rw [e1]
  have e2 : (era * 146097 + doe) / 146097 = era := by omega
  rw [e2]
  have e3 : era * 146097 + doe - era * 146097 = doe := by omega
  rw [e3]
  have e4 : (doe - doe / 1460 + doe / 36524 - doe / 146096) / 365 = yoe := by
    apply yoe_recover yoe doy doe hyoe0 hyoe1 h3 _ (by omega)
    rcases h4 with h | ⟨ha, hb, hc⟩
    · exact Or.inl h
    · exact Or.inr ⟨ha, by omega, by omega⟩
  rw [e4]
  have e5 : doe - (365 * yoe + yoe / 4 - yoe / 100) = doy := by omega
  rw [e5]
  have e6 : yoe + era * 400 = y1 := by omega
  rw [e6]


theorem dfc_march (y m d : Int) :
    daysFromCivil y m d =
      marchDays (if m ≤ 2 then y - 1 else y) ((153 * ((m + 9) % 12) + 2) / 5 + d - 1) := by
  by_cases h : m ≤ 2
  · simp only [daysFromCivil, marchDays, if_pos h]
  · simp only [daysFromCivil, marchDays, if_neg h]

theorem isLeapYear_iff (y : Int) :
    isLeapYear y = true ↔ ((y % 4 = 0 ∧ y % 100 ≠ 0) ∨ y % 400 = 0) := by
  simp [isLeapYear, Bool.or_eq_true, Bool.and_eq_true, beq_iff_eq, bne_iff_ne]


theorem civil_roundtrip (y m d : Int) (hy1 : 1 ≤ y) (hy2 : y ≤ 9999)
    (hm1 : 1 ≤ m) (hm2 : m ≤ 12) (hd1 : 1 ≤ d) (hd2 : d ≤ daysInMonth y m) :
    civilFromDays (daysFromCivil y m d) = (y, m, d) := by
  rw [dfc_march]
  interval_cases m
  · -- m = 1
    have hdm : daysInMonth y 1 = 31 := by norm_num [daysInMonth]
    rw [hdm] at hd2
    rw [if_pos (by norm_num : ((1:Int) ≤ 2))]
    have hS : ((153 * (((1:Int) + 9) % 12) + 2) / 5 : Int) = 306 := by decide
    rw [hS]
    rw [cfd_marchDays (y - 1) (306 + d - 1) (by omega) (Or.inl (by omega))]
    have hmp : ((5 * ((306:Int) + d - 1) + 2) / 153 : Int) = 10 := by omega
    rw [hmp]
    norm_num <;> omega
  · -- m = 2
    have hdm : daysInMonth y 2 = if isLeapYear y then 29 else 28 := by
      norm_num [daysInMonth]
    rw [hdm] at hd2
    have hfeb : d ≤ 28 ∨ (d = 29 ∧ y % 4 = 0 ∧ (y % 100 ≠ 0 ∨ y % 400 = 0)) := by
      rcases hL : isLeapYear y with _ | _
      · rw [hL, if_neg (by simp : ¬(false = true))] at hd2
        exact Or.inl hd2
      · rw [hL, if_pos rfl] at hd2
        have hLP := (isLeapYear_iff y).mp hL
        by_cases hd29 : d = 29
        · exact Or.inr ⟨hd29, by omega, by omega⟩
        · exact Or.inl (by omega)
    rw [if_pos (by norm_num : ((2:Int) ≤ 2))]
    have hS : ((153 * (((2:Int) + 9) % 12) + 2) / 5 : Int) = 337 := by decide
    rw [hS]
    have h4feb : 337 + d - 1 ≤ 364 ∨
        (337 + d - 1 = 365 ∧ (y - 1 + 1) % 4 = 0 ∧
          ((y - 1 + 1) % 100 ≠ 0 ∨ (y - 1 + 1) % 400 = 0)) := by
      rcases hfeb with h | ⟨h29, h4p, h100⟩
      · exact Or.inl (by omega)
      · exact Or.inr ⟨by omega, by omega, by omega⟩
    rw [cfd_marchDays (y - 1) (337 + d - 1) (by omega) h4feb]
    have hmp : ((5 * ((337:Int) + d - 1) + 2) / 153 : Int) = 11 := by omega
    rw [hmp]
    norm_num <;> omega
  · -- m = 3
    have hdm : daysInMonth y 3 = 31 := by norm_num [daysInMonth]
    rw [hdm] at hd2
    rw [if_neg (by norm_num : ¬((3:Int) ≤ 2))]
    have hS : ((153 * (((3:Int) + 9) % 12) + 2) / 5 : Int) = 0 := by decide
    rw [hS]
    rw [cfd_marchDays y (0 + d - 1) (by omega) (Or.inl (by omega))]
    have hmp : ((5 * ((0:Int) + d - 1) + 2) / 153 : Int) = 0 := by omega
    rw [hmp]
    norm_num <;> omega
  · -- m = 4
    have hdm : daysInMonth y 4 = 30 := by norm_num [daysInMonth]
    rw [hdm] at hd2
    rw [if_neg (by norm_num : ¬((4:Int) ≤ 2))]
    have hS : ((153 * (((4:Int) + 9) % 12) + 2) / 5 : Int) = 31 := by decide
    rw [hS]
    rw [cfd_marchDays y (31 + d - 1) (by omega) (Or.inl (by omega))]
    have hmp : ((5 * ((31:Int) + d - 1) + 2) / 153 : Int) = 1 := by omega
    rw [hmp]
    norm_num <;> omega
  · -- m = 5
    have hdm : daysInMonth y 5 = 31 := by norm_num [daysInMonth]
    rw [hdm] at hd2
    rw [if_neg (by norm_num : ¬((5:Int) ≤ 2))]
    have hS : ((153 * (((5:Int) + 9) % 12) + 2) / 5 : Int) = 61 := by decide
    rw [hS]
    rw [cfd_marchDays y (61 + d - 1) (by omega) (Or.inl (by omega))]
    have hmp : ((5 * ((61:Int) + d - 1) + 2) / 153 : Int) = 2 := by omega
    rw [hmp]
    norm_num <;> omega
  · -- m = 6
    have hdm : daysInMonth y 6 = 30 := by norm_num [daysInMonth]
    rw [hdm] at hd2
    rw [if_neg (by norm_num : ¬((6:Int) ≤ 2))]
    have hS : ((153 * (((6:Int) + 9) % 12) + 2) / 5 : Int) = 92 := by decide
    rw [hS]
    rw [cfd_marchDays y (92 + d - 1) (by omega) (Or.inl (by omega))]
    have hmp : ((5 * ((92:Int) + d - 1) + 2) / 153 : Int) = 3 := by omega
    rw [hmp]
    norm_num <;> omega
  · -- m = 7
    have hdm : daysInMonth y 7 = 31 := by norm_num [daysInMonth]
    rw [hdm] at hd2
    rw [if_neg (by norm_num : ¬((7:Int) ≤ 2))]
    have hS : ((153 * (((7:Int) + 9) % 12) + 2) / 5 : Int) = 122 := by decide
    rw [hS]
    rw [cfd_marchDays y (122 + d - 1) (by omega) (Or.inl (by omega))]
    have hmp : ((5 * ((122:Int) + d - 1) + 2) / 153 : Int) = 4 := by omega
    rw [hmp]
    norm_num <;> omega
  · -- m = 8
    have hdm : daysInMonth y 8 = 31 := by norm_num [daysInMonth]
    rw [hdm] at hd2
    rw [if_neg (by norm_num : ¬((8:Int) ≤ 2))]
    have hS : ((153 * (((8:Int) + 9) % 12) + 2) / 5 : Int) = 153 := by decide
    rw [hS]
    rw [cfd_marchDays y (153 + d - 1) (by omega) (Or.inl (by omega))]
    have hmp : ((5 * ((153:Int) + d - 1) + 2) / 153 : Int) = 5 := by omega
    rw [hmp]
    norm_num <;> omega
  · -- m = 9
    have hdm : daysInMonth y 9 = 30 := by norm_num [daysInMonth]
    rw [hdm] at hd2
    rw [if_neg (by norm_num : ¬((9:Int) ≤ 2))]
    have hS : ((153 * (((9:Int) + 9) % 12) + 2) / 5 : Int) = 184 := by decide
    rw [hS]
    rw [cfd_marchDays y (184 + d - 1) (by omega) (Or.inl (by omega))]
    have hmp : ((5 * ((184:Int) + d - 1) + 2) / 153 : Int) = 6 := by omega
    rw [hmp]
    norm_num <;> omega
  · -- m = 10
    have hdm : daysInMonth y 10 = 31 := by norm_num [daysInMonth]
    rw [hdm] at hd2
    rw [if_neg (by norm_num : ¬((10:Int) ≤ 2))]
    have hS : ((153 * (((10:Int) + 9) % 12) + 2) / 5 : Int) = 214 := by decide
    rw [hS]
    rw [cfd_marchDays y (214 + d - 1) (by omega) (Or.inl (by omega))]
    have hmp : ((5 * ((214:Int) + d - 1) + 2) / 153 : Int) = 7 := by omega
    rw [hmp]
    norm_num <;> omega
  · -- m = 11
    have hdm : daysInMonth y 11 = 30 := by norm_num [daysInMonth]
    rw [hdm] at hd2
    rw [if_neg (by norm_num : ¬((11:Int) ≤ 2))]
    have hS : ((153 * (((11:Int) + 9) % 12) + 2) / 5 : Int) = 245 := by decide
    rw [hS]
    rw [cfd_marchDays y (245 + d - 1) (by omega) (Or.inl (by omega))]
    have hmp : ((5 * ((245:Int) + d - 1) + 2) / 153 : Int) = 8 := by omega
    rw [hmp]
    norm_num <;> omega
  · -- m = 12
    have hdm : daysInMonth y 12 = 31 := by norm_num [daysInMonth]
    rw [hdm] at hd2
    rw [if_neg (by norm_num : ¬((12:Int) ≤ 2))]
    have hS : ((153 * (((12:Int) + 9) % 12) + 2) / 5 : Int) = 275 := by decide
    rw [hS]
    rw [cfd_marchDays y (275 + d - 1) (by omega) (Or.inl (by omega))]
    have hmp : ((5 * ((275:Int) + d - 1) + 2) / 153 : Int) = 9 := by omega
    rw [hmp]
    norm_num <;> omega

/-! ## Validity infrastructure -/

theorem valid_iff (d : DateTime) : d.valid = true ↔
    (1 ≤ d.year ∧ d.year ≤ 9999 ∧ 1 ≤ d.month ∧ d.month ≤ 12 ∧
     1 ≤ d.day ∧ d.day ≤ daysInMonth d.year d.month ∧
     0 ≤ d.hour ∧ d.hour ≤ 23 ∧ 0 ≤ d.minute ∧ d.minute ≤ 59 ∧
     0 ≤ d.second ∧ d.second ≤ 59 ∧ 0 ≤ d.microsecond ∧ d.microsecond ≤ 999999) := by
  simp [DateTime.valid, Bool.and_eq_true, decide_eq_true_eq, and_assoc]

theorem ensureValid_eq_some {d e : DateTime} :
    ensureValid d = some e ↔ d.valid = true ∧ e = d := by
  unfold ensureValid
  split
  case isTrue hv =>
    simp only [Option.some.injEq]
    exact ⟨fun h => ⟨hv, h.symm⟩, fun h => h.2.symm⟩
  case isFalse hv =>
    exact ⟨fun h => Option.noConfusion h, fun h => absurd h.1 hv⟩

theorem ensureValid_valid {d e : DateTime} (h : ensureValid d = some e) :
    e.valid = true := by
  obtain ⟨hv, rfl⟩ := ensureValid_eq_some.mp h
  exact hv

theorem ensureValid_of_valid {d : DateTime} (h : d.valid = true) :
    ensureValid d = some d := by
  unfold ensureValid
  simp [h]

theorem replace_valid {dt : DateTime} {y m d h mi s us : Option Int} {e : DateTime}
    (hr : dt.replace y m d h mi s us = some e) : e.valid = true :=
  ensureValid_valid hr

theorem addDays_valid {dt : DateTime} {n : Int} {e : DateTime}
    (h : dt.addDays n = some e) : e.valid = true :=
  ensureValid_valid h

theorem addHours_valid {dt : DateTime} {n : Int} {e : DateTime}
    (h : dt.addHours n = some e) : e.valid = true :=
  ensureValid_valid h

theorem addMinutes_valid {dt : DateTime} {n : Int} {e : DateTime}
    (h : dt.addMinutes n = some e) : e.valid = true :=
  ensureValid_valid h

theorem truncToSecond_valid {c e : DateTime} (h : truncToSecond c = some e) :
    e.valid = true :=
  ensureValid_valid h

theorem applyRelative_valid {r : Option RelativeTime} {dt e : DateTime}
    (hdt : dt.valid = true) (h : applyRelative r dt = some e) : e.valid = true := by
  match r with
  | none =>
    simp only [applyRelative] at h
    cases h
    exact hdt
  | some r =>
    simp only [applyRelative, Option.bind_eq_some] at h
    obtain ⟨d1, h1, d2, h2, d3, h3, d4, h4, h5⟩ := h
    have v1 : d1.valid = true := by
      unfold stepRelYear at h1
      match hy : r.year with
      | none => rw [hy] at h1; cases h1; exact hdt
      | some _ => rw [hy] at h1; exact replace_valid h1
    have v2 : d2.valid = true := by
      unfold stepRelMonth at h2
      match hy : r.month with
      | none => rw [hy] at h2; cases h2; exact v1
      | some _ => rw [hy] at h2; exact replace_valid h2
    have v3 : d3.valid = true := by
      unfold stepRelDay at h3
      match hy : r.day with
      | none => rw [hy] at h3; cases h3; exact v2
      | some _ => rw [hy] at h3; exact addDays_valid h3
    have v4 : d4.valid = true := by
      unfold stepRelHour at h4
      match hy : r.hour with
      | none => rw [hy] at h4; cases h4; exact v3
      | some _ => rw [hy] at h4; exact addHours_valid h4
    unfold stepRelMinute at h5
    match hy : r.minute with
    | none => rw [hy] at h5; cases h5; exact v4
    | some _ => rw [hy] at h5; exact addMinutes_valid h5

theorem applyAbsolute_valid {a : Option AbsoluteTime} {dt e : DateTime}
    (hdt : dt.valid = true) (h : applyAbsolute a dt = some e) : e.valid = true := by
  match a with
  | none =>
    simp only [applyAbsolute] at h
    cases h
    exact hdt
  | some a =>
    simp only [applyAbsolute, Option.bind_eq_some] at h
    obtain ⟨d1, h1, d2, h2, d3, h3, h4⟩ := h
    have v1 : d1.valid = true := by
      unfold stepAbsYear at h1
      match hy : a.year with
      | none => rw [hy] at h1; cases h1; exact hdt
      | some _ => rw [hy] at h1; exact replace_valid h1
    have v2 : d2.valid = true := by
      unfold stepAbsMonth at h2
      match hy : a.month with
      | none => rw [hy] at h2; cases h2; exact v1
      | some _ => rw [hy] at h2; exact replace_valid h2
    have v3 : d3.valid = true := by
      unfold stepAbsDay at h3
      match hy : a.day with
      | none => rw [hy] at h3; cases h3; exact v2
      | some _ => rw [hy] at h3; exact replace_valid h3
    unfold stepAbsTime at h4
    match hh : a.hour, hm : a.minute with
    | none, none => rw [hh, hm] at h4; simp at h4; cases h4; exact v3
    | some _, _ => rw [hh, hm] at h4; exact replace_valid h4
    | none, some _ => rw [hh, hm] at h4; exact replace_valid h4

theorem expandBase_valid {t : TimeSingle} {cur b : DateTime}
    (h : expandBase t cur = some b) : b.valid = true := by
  simp only [expandBase, Option.bind_eq_some] at h
  obtain ⟨d1, h1, d2, h2, h3⟩ := h
  exact applyAbsolute_valid (applyRelative_valid (truncToSecond_valid h1) h2) h3

/-! ## Derived calendar facts -/

theorem one_le_daysInMonth (y m : Int) : 1 ≤ daysInMonth y m := by
  unfold daysInMonth
  split
  · split <;> omega
  · split <;> omega

theorem addDays_zero {b : DateTime} (hb : b.valid = true) : b.addDays 0 = some b := by
  have hv := (valid_iff b).mp hb
  unfold DateTime.addDays DateTime.toDayNumber
  simp only [Int.add_zero]
  rw [civil_roundtrip b.year b.month b.day hv.1 hv.2.1 hv.2.2.1 hv.2.2.2.1
    hv.2.2.2.2.1 hv.2.2.2.2.2.1]
  exact ensureValid_of_valid hb

theorem dfc_next_month (y m : Int) (hy1 : 1 ≤ y) (hy2 : y ≤ 9999)
    (h1 : 1 ≤ m) (h2 : m ≤ 11) :
    daysFromCivil y (m + 1) 1 = daysFromCivil y m (daysInMonth y m) + 1 := by
  interval_cases m
  · -- January -> February
    have hdm : daysInMonth y 1 = 31 := by norm_num [daysInMonth]
    rw [hdm]
    unfold daysFromCivil
    norm_num
    omega
  · -- February -> March
    have hdm : daysInMonth y 2 = if isLeapYear y then 29 else 28 := by
      norm_num [daysInMonth]
    rw [hdm]
    rcases hL : isLeapYear y with _ | _
    · rw [if_neg (by simp : ¬(false = true))]
      have hLP : ¬(((y % 4 = 0 ∧ y % 100 ≠ 0) ∨ y % 400 = 0)) := by
        intro hc
        rw [← isLeapYear_iff] at hc
        simp [hL] at hc
      unfold daysFromCivil
      norm_num
      omega
    · rw [if_pos rfl]
      have hLP : (y % 4 = 0 ∧ y % 100 ≠ 0) ∨ y % 400 = 0 := (isLeapYear_iff y).mp hL
      unfold daysFromCivil
      norm_num
      omega
  · have hdm : daysInMonth y 3 = 31 := by norm_num [daysInMonth]
    rw [hdm]; unfold daysFromCivil; norm_num; omega
  · have hdm : daysInMonth y 4 = 30 := by norm_num [daysInMonth]
    rw [hdm]; unfold daysFromCivil; norm_num; omega
  · have hdm : daysInMonth y 5 = 31 := by norm_num [daysInMonth]
    rw [hdm]; unfold daysFromCivil; norm_num; omega
  · have hdm : daysInMonth y 6 = 30 := by norm_num [daysInMonth]
    rw [hdm]; unfold daysFromCivil; norm_num; omega
  · have hdm : daysInMonth y 7 = 31 := by norm_num [daysInMonth]
    rw [hdm]; unfold daysFromCivil; norm_num; omega
  · have hdm : daysInMonth y 8 = 31 := by norm_num [daysInMonth]
    rw [hdm]; unfold daysFromCivil; norm_num; omega
  · have hdm : daysInMonth y 9 = 30 := by norm_num [daysInMonth]
    rw [hdm]; unfold daysFromCivil; norm_num; omega
  · have hdm : daysInMonth y 10 = 31 := by norm_num [daysInMonth]
    rw [hdm]; unfold daysFromCivil; norm_num; omega
  · have hdm : daysInMonth y 11 = 30 := by norm_num [daysInMonth]
    rw [hdm]; unfold daysFromCivil; norm_num; omega

theorem dfc_next_year (y : Int) :
    daysFromCivil (y + 1) 1 1 = daysFromCivil y 12 31 + 1 := by
  unfold daysFromCivil
  norm_num
  omega

theorem addDays_eq (dt : DateTime) (n : Int) :
    dt.addDays n = ensureValid
      ⟨(civilFromDays (daysFromCivil dt.year dt.month dt.day + n)).1,
       (civilFromDays (daysFromCivil dt.year dt.month dt.day + n)).2.1,
       (civilFromDays (daysFromCivil dt.year dt.month dt.day + n)).2.2,
       dt.hour, dt.minute, dt.second, dt.microsecond⟩ := rfl

theorem lastDayRoll_sound {b ld : DateTime} (hb : b.valid = true)
    (h : lastDayRoll b = some ld) :
    ld = ⟨b.year, b.month, daysInMonth b.year b.month, 0, 0, 0, 0⟩ := by
  have hv := (valid_iff b).mp hb
  unfold lastDayRoll at h
  by_cases h12 : b.month = 12
  · rw [if_pos (by simp [beq_iff_eq, h12] : (b.month == 12) = true)] at h
    rw [Option.bind_eq_some] at h
    obtain ⟨fn, hfn, hadd⟩ := h
    obtain ⟨hfv, rfl⟩ := ensureValid_eq_some.mp hfn
    rw [addDays_eq] at hadd
    dsimp only at hadd
    have harg : daysFromCivil (b.year + 1) 1 1 + -1 = daysFromCivil b.year 12 31 := by
      have := dfc_next_year b.year
      omega
    rw [harg] at hadd
    have hdm : daysInMonth b.year 12 = 31 := by norm_num [daysInMonth]
    rw [civil_roundtrip b.year 12 31 hv.1 hv.2.1 (by norm_num) (by norm_num)
      (by norm_num) (by rw [hdm])] at hadd
    dsimp only at hadd
    obtain ⟨_, rfl⟩ := ensureValid_eq_some.mp hadd
    rw [h12, hdm]
  · rw [if_neg (by simp [beq_iff_eq, h12] : ¬((b.month == 12) = true))] at h
    rw [Option.bind_eq_some] at h
    obtain ⟨fn, hfn, hadd⟩ := h
    obtain ⟨hfv, rfl⟩ := ensureValid_eq_some.mp hfn
    rw [addDays_eq] at hadd
    dsimp only at hadd
    have hm11 : b.month ≤ 11 := by
      have := hv.2.2.2.1
      omega
    have harg : daysFromCivil b.year (b.month + 1) 1 + -1 =
        daysFromCivil b.year b.month (daysInMonth b.year b.month) := by
      have := dfc_next_month b.year b.month hv.1 hv.2.1 hv.2.2.1 hm11
      omega
    rw [harg] at hadd
    rw [civil_roundtrip b.year b.month (daysInMonth b.year b.month) hv.1 hv.2.1
      hv.2.2.1 hv.2.2.2.1 (one_le_daysInMonth b.year b.month) (le_refl _)] at hadd
    dsimp only at hadd
    obtain ⟨_, rfl⟩ := ensureValid_eq_some.mp hadd
    rfl

/-! ## Field behaviour of the arithmetic steps -/

theorem stepRelYear_time {r : RelativeTime} {dt e : DateTime} (h : stepRelYear r dt = some e) :
    e.hour = dt.hour ∧ e.minute = dt.minute ∧ e.second = dt.second := by
  unfold stepRelYear at h
  match hy : r.year with
  | none => rw [hy] at h; cases h; exact ⟨rfl, rfl, rfl⟩
  | some v => rw [hy] at h; obtain ⟨_, rfl⟩ := ensureValid_eq_some.mp h; exact ⟨rfl, rfl, rfl⟩

theorem stepRelMonth_time {r : RelativeTime} {dt e : DateTime} (h : stepRelMonth r dt = some e) :
    e.hour = dt.hour ∧ e.minute = dt.minute ∧ e.second = dt.second := by
  unfold stepRelMonth at h
  match hy : r.month with
  | none => rw [hy] at h; cases h; exact ⟨rfl, rfl, rfl⟩
  | some v => rw [hy] at h; obtain ⟨_, rfl⟩ := ensureValid_eq_some.mp h; exact ⟨rfl, rfl, rfl⟩

theorem stepRelDay_time {r : RelativeTime} {dt e : DateTime} (h : stepRelDay r dt = some e) :
    e.hour = dt.hour ∧ e.minute = dt.minute ∧ e.second = dt.second := by
  unfold stepRelDay at h
  match hy : r.day with
  | none => rw [hy] at h; cases h; exact ⟨rfl, rfl, rfl⟩
  | some v =>
    rw [hy] at h
    obtain ⟨_, rfl⟩ := ensureValid_eq_some.mp h
    exact ⟨rfl, rfl, rfl⟩

theorem stepRelHour_none {r : RelativeTime} (dt : DateTime) (h : r.hour = none) :
    stepRelHour r dt = some dt := by
  unfold stepRelHour
  rw [h]

theorem stepRelMinute_none {r : RelativeTime} (dt : DateTime) (h : r.minute = none) :
    stepRelMinute r dt = some dt := by
  unfold stepRelMinute
  rw [h]

theorem stepAbsYear_time {a : AbsoluteTime} {dt e : DateTime} (h : stepAbsYear a dt = some e) :
    e.hour = dt.hour ∧ e.minute = dt.minute ∧ e.second = dt.second := by
  unfold stepAbsYear at h
  match hy : a.year with
  | none => rw [hy] at h; cases h; exact ⟨rfl, rfl, rfl⟩
  | some v => rw [hy] at h; obtain ⟨_, rfl⟩ := ensureValid_eq_some.mp h; exact ⟨rfl, rfl, rfl⟩

theorem stepAbsMonth_time {a : AbsoluteTime} {dt e : DateTime} (h : stepAbsMonth a dt = some e) :
    e.hour = dt.hour ∧ e.minute = dt.minute ∧ e.second = dt.second := by
  unfold stepAbsMonth at h
  match hy : a.month with
  | none => rw [hy] at h; cases h; exact ⟨rfl, rfl, rfl⟩
  | some v => rw [hy] at h; obtain ⟨_, rfl⟩ := ensureValid_eq_some.mp h; exact ⟨rfl, rfl, rfl⟩

theorem stepAbsDay_time {a : AbsoluteTime} {dt e : DateTime} (h : stepAbsDay a dt = some e) :
    e.hour = dt.hour ∧ e.minute = dt.minute ∧ e.second = dt.second := by
  unfold stepAbsDay at h
  match hy : a.day with
  | none => rw [hy] at h; cases h; exact ⟨rfl, rfl, rfl⟩
  | some v => rw [hy] at h; obtain ⟨_, rfl⟩ := ensureValid_eq_some.mp h; exact ⟨rfl, rfl, rfl⟩

theorem truncToSecond_time {c e : DateTime} (h : truncToSecond c = some e) :
    e.hour = c.hour ∧ e.minute = c.minute ∧ e.second = c.second := by
  obtain ⟨_, rfl⟩ := ensureValid_eq_some.mp h
  exact ⟨rfl, rfl, rfl⟩

/-! ## Replace characterizations at the expansion values -/

theorem replace_start_of_day {b : DateTime} (hb : b.valid = true) :
    b.replace none none none (some 0) (some 0) (some 0) (some 0) = some (startOfDayV b) := by
  have hv := (valid_iff b).mp hb
  apply ensureValid_of_valid
  rw [valid_iff]
  exact ⟨hv.1, hv.2.1, hv.2.2.1, hv.2.2.2.1, hv.2.2.2.2.1, hv.2.2.2.2.2.1,
    by norm_num, by norm_num, by norm_num, by norm_num, by norm_num, by norm_num,
    by norm_num, by norm_num⟩

theorem replace_end_of_day {b : DateTime} (hb : b.valid = true) :
    b.replace none none none (some 23) (some 59) (some 59) (some 999000) =
      some (endOfDayV b) := by
  have hv := (valid_iff b).mp hb
  apply ensureValid_of_valid
  rw [valid_iff]
  exact ⟨hv.1, hv.2.1, hv.2.2.1, hv.2.2.2.1, hv.2.2.2.2.1, hv.2.2.2.2.2.1,
    by norm_num, by norm_num, by norm_num, by norm_num, by norm_num, by norm_num,
    by norm_num, by norm_num⟩

theorem replace_first_of_month {b : DateTime} (hb : b.valid = true) :
    b.replace none none (some 1) (some 0) (some 0) (some 0) (some 0) =
      some ⟨b.year, b.month, 1, 0, 0, 0, 0⟩ := by
  have hv := (valid_iff b).mp hb
  apply ensureValid_of_valid
  rw [valid_iff]
  exact ⟨hv.1, hv.2.1, hv.2.2.1, hv.2.2.2.1, by norm_num, one_le_daysInMonth _ _,
    by norm_num, by norm_num, by norm_num, by norm_num, by norm_num, by norm_num,
    by norm_num, by norm_num⟩

theorem replace_last_of_month {b : DateTime} (hb : b.valid = true) :
    b.replace none none (some (daysInMonth b.year b.month)) (some 23) (some 59) (some 59)
        (some 999000) =
      some ⟨b.year, b.month, daysInMonth b.year b.month, 23, 59, 59, 999000⟩ := by
  have hv := (valid_iff b).mp hb
  apply ensureValid_of_valid
  rw [valid_iff]
  exact ⟨hv.1, hv.2.1, hv.2.2.1, hv.2.2.2.1, one_le_daysInMonth _ _, le_refl _,
    by norm_num, by norm_num, by norm_num, by norm_num, by norm_num, by norm_num,
    by norm_num, by norm_num⟩

theorem replace_first_of_year {b : DateTime} (hb : b.valid = true) :
    b.replace none (some 1) (some 1) (some 0) (some 0) (some 0) (some 0) =
      some ⟨b.year, 1, 1, 0, 0, 0, 0⟩ := by
  have hv := (valid_iff b).mp hb
  apply ensureValid_of_valid
  rw [valid_iff]
  refine ⟨hv.1, hv.2.1, by norm_num, by norm_num, by norm_num, ?_,
    by norm_num, by norm_num, by norm_num, by norm_num, by norm_num, by norm_num,
    by norm_num, by norm_num⟩
  show (1:Int) ≤ daysInMonth b.year 1
  have : daysInMonth b.year 1 = 31 := by norm_num [daysInMonth]
  rw [this]
  norm_num

theorem replace_last_of_year {b : DateTime} (hb : b.valid = true) :
    b.replace none (some 12) (some 31) (some 23) (some 59) (some 59) (some 999000) =
      some ⟨b.year, 12, 31, 23, 59, 59, 999000⟩ := by
  have hv := (valid_iff b).mp hb
  apply ensureValid_of_valid
  rw [valid_iff]
  refine ⟨hv.1, hv.2.1, by norm_num, by norm_num, by norm_num, ?_,
    by norm_num, by norm_num, by norm_num, by norm_num, by norm_num, by norm_num,
    by norm_num, by norm_num⟩
  show (31:Int) ≤ daysInMonth b.year 12
  have : daysInMonth b.year 12 = 31 := by norm_num [daysInMonth]
  rw [this]

/-! ## Claim theorems -/

/-- Claim C10: Relative year and month offsets replace calendar fields keeping
the day-of-month, so the resolver raises a day-out-of-range error for some
inputs (it is partial): current = 2024-01-31 with `relative month = +1` and
current = 2024-02-29 with `relative year = +1` both raise, while relative
day/hour/minute offsets succeed on the very same reference instants. -/
theorem claim_C10_resolver_partial :
    compute_date_time specRelMonth1 curJan31 = none ∧
    compute_date_time specRelYear1 curFeb29 = none ∧
    compute_date_time specRelDay1 curJan31 = some ⟨none, some "2024-02-01T10:00:00"⟩ ∧
    compute_date_time specRelHour1 curJan31 = some ⟨none, some "2024-01-31T11:00:00"⟩ ∧
    compute_date_time specRelMinute1 curJan31 = some ⟨none, some "2024-01-31T10:01:00"⟩ ∧
    compute_date_time specRelDay1 curFeb29 = some ⟨none, some "2024-03-01T10:00:00"⟩ := by
  decide

/-- Claim C2: Relative offsets are applied before absolute overrides and this
order matters: for the spec `{relative: {year: 1, month: 1}, absolute:
{day: 5}}` at reference instant 2024-01-30T10:00:00 the implemented
relative-first order raises (Jan 30 + 1 month = Feb 30 does not exist) while
the reversed absolute-first order yields 2025-02-05T10:00:00. -/
theorem claim_C2_order_matters :
    computeDTCore specC2 curJan30 = none ∧
    computeDTCoreAbsoluteFirst specC2 curJan30 = some ⟨2025, 2, 5, 10, 0, 0, 0⟩ ∧
    computeDTCore specC2 curJan30 ≠ computeDTCoreAbsoluteFirst specC2 curJan30 := by
  decide

/-- Claim C3: The relative month step adds the offset to the month and
re-derives year and month by carrying the zero-based month index into the
year: the total month index `12*year + (month-1)` grows by exactly `m` and
the resulting month stays in `[1, 12]`; in particular month 11 plus a
relative month offset of +3 yields February of the next year. -/
theorem claim_C3_month_overflow_carry :
    (∀ (r : RelativeTime) (dt e : DateTime) (m : Int), r.month = some m →
        stepRelMonth r dt = some e →
        12 * e.year + (e.month - 1) = 12 * dt.year + (dt.month - 1) + m ∧
        1 ≤ e.month ∧ e.month ≤ 12) ∧
      compute_date_time specRelMonth3 curNov15 =
        some ⟨none, some "2025-02-15T10:00:00"⟩ := by
  constructor
  · intro r dt e m hm h
    unfold stepRelMonth at h
    rw [hm] at h
    obtain ⟨hv, rfl⟩ := ensureValid_eq_some.mp h
    simp only [Option.getD_some]
    refine ⟨by omega, by omega, by omega⟩
  · decide

/-- Witness for `claim_C3_month_overflow_carry` at `month = 11`, offset
`+3`: the month index moves from November 2024 to February 2025. -/
theorem claim_C3_month_overflow_carry_witness :
    12 * (2025:Int) + (2 - 1) = 12 * 2024 + (11 - 1) + 3 ∧
    (1:Int) ≤ 2 ∧ (2:Int) ≤ 12 :=
  claim_C3_month_overflow_carry.1 ⟨none, some 3, none, none, none⟩ curNov15
    ⟨2025, 2, 15, 10, 0, 0, 0⟩ 3 rfl (by decide)

/-- Claim C1 is false on the code: for the range-endpoint spec containing only
`relative day = 0`, `build_expanded_endpoint` hits the special case of lines
202-209 and returns the current computed moment (10:23:45), not the start of
the current day (00:00:00) that the claim asserts for a start endpoint. -/
theorem claim_C1_counterexample :
    build_expanded_endpoint (some specDayZero) true curMay15 =
      some ⟨none, some "2024-05-15T10:23:45"⟩ ∧
    (⟨none, some "2024-05-15T10:23:45"⟩ : ComputedDateTime) ≠
      ⟨none, some "2024-05-15T00:00:00"⟩ := by
  decide

/-- Claim C1 (amended): a range endpoint whose spec contains only a relative
day offset of 0 resolves to the current computed moment — the reference
instant truncated to whole seconds — identically for the start and the end
endpoint, with no expansion to the day's boundaries. -/
theorem claim_C1_day_zero_endpoint_is_moment (cur b : DateTime)
    (h : truncToSecond cur = some b) :
    build_expanded_endpoint (some specDayZero) true cur =
      some ⟨none, some (strftimeISO b)⟩ ∧
    build_expanded_endpoint (some specDayZero) false cur =
      some ⟨none, some (strftimeISO b)⟩ := by
  have hbv := truncToSecond_valid h
  have hrel : applyRelative specDayZero.relative b = some b := by
    show ((stepRelYear ⟨none, none, some 0, none, none⟩ b).bind fun dt =>
      (stepRelMonth ⟨none, none, some 0, none, none⟩ dt).bind fun dt =>
      (stepRelDay ⟨none, none, some 0, none, none⟩ dt).bind fun dt =>
      (stepRelHour ⟨none, none, some 0, none, none⟩ dt).bind fun dt =>
      stepRelMinute ⟨none, none, some 0, none, none⟩ dt) = some b
    show (stepRelDay ⟨none, none, some 0, none, none⟩ b).bind _ = some b
    unfold stepRelDay
    show (b.addDays 0).bind _ = some b
    rw [addDays_zero hbv]
    rfl
  have hcore : ∀ s : Bool, buildExpandedCore (some specDayZero) s cur = some b := by
    intro s
    have hexp : expandBase specDayZero cur = some b := by
      unfold expandBase
      rw [h]
      show (applyRelative specDayZero.relative b).bind _ = some b
      rw [hrel]
      rfl
    show (expandBase specDayZero cur).bind _ = some b
    rw [hexp]
    simp [show isDayZeroSpecial specDayZero = true from by decide]
  constructor <;>
  · show (buildExpandedCore (some specDayZero) _ cur).map _ = _
    rw [hcore]
    rfl

/-- Witness for `claim_C1_day_zero_endpoint_is_moment` at the reference
instant 2024-05-15T10:23:45.000678. -/
theorem claim_C1_day_zero_endpoint_is_moment_witness :
    build_expanded_endpoint (some specDayZero) true curMay15 =
      some ⟨none, some (strftimeISO ⟨2024, 5, 15, 10, 23, 45, 0⟩)⟩ ∧
    build_expanded_endpoint (some specDayZero) false curMay15 =
      some ⟨none, some (strftimeISO ⟨2024, 5, 15, 10, 23, 45, 0⟩)⟩ :=
  claim_C1_day_zero_endpoint_is_moment curMay15 ⟨2024, 5, 15, 10, 23, 45, 0⟩ (by decide)

/-- Claim C8: When the end group is non-empty and contains no date-level unit
(year/month/day/weekday), every date-level fragment of the start group is
copied into the end group re-tagged `end` before components are built; with
start elements `{absolute month=7, day=30, hour=2}` and end element
`{absolute hour=5}`, the end endpoint inherits month 7 and day 30 and
resolves to 2024-07-30T05:00:00. -/
theorem claim_C8_end_inherits_start_dates :
    (∀ (startEls endEls : List TimeElement) (e : TimeElement),
        endEls ≠ [] → hasDateUnits endEls = false →
        e ∈ startEls → isDateLevelElement e = true →
        { e with time_range := some "end" } ∈ inheritEnd startEls endEls) ∧
      pipeline [elMonth7Start, elDay30Start, elHour2Start, elHour5End] curJan1 =
        some ⟨true, none, none,
          some (⟨none, some "2024-07-30T02:00:00"⟩, ⟨none, some "2024-07-30T05:00:00"⟩)⟩ := by
  constructor
  · intro startEls endEls e hne hnd hmem hdl
    unfold inheritEnd
    rw [if_pos]
    · exact List.mem_append_right _
        (List.mem_map_of_mem _ (List.mem_filter.mpr ⟨hmem, hdl⟩))
    · simp [List.isEmpty_iff, hne, hnd]
  · decide

/-- Witness for `claim_C8_end_inherits_start_dates`: the month fragment of
the start group is re-tagged `end` and appended to the end group. -/
theorem claim_C8_end_inherits_start_dates_witness :
    ({ elMonth7Start with time_range := some "end" } : TimeElement) ∈
      inheritEnd [elMonth7Start, elDay30Start, elHour2Start] [elHour5End] :=
  claim_C8_end_inherits_start_dates.1 [elMonth7Start, elDay30Start, elHour2Start]
    [elHour5End] elMonth7Start (by decide) (by decide) (by decide) (by decide)

/-- Claim C9 is false on the code: weekday fragments are not inert for the
full pipeline.  A weekday fragment in the end group counts as a date-level
unit in the decomposer's inheritance test, so removing it lets the end group
inherit the start group's month fragment and the converted output changes. -/
theorem claim_C9_counterexample :
    pipeline (removeWeekdayElements [elMonth7Start, elMondayEnd, elHour5End]) curC9 ≠
      pipeline [elMonth7Start, elMondayEnd, elHour5End] curC9 := by
  decide

/-- Claim C9 (amended): the arithmetic resolver itself never consumes a
`WeekdayOffset`: erasing every weekday field from a payload leaves
`convert_datetime_payload` unchanged for every payload and reference
instant.  (The full pipeline is *not* invariant under removing weekday
fragments, because weekday units participate in the decomposer's
date-inheritance test — see `claim_C9_counterexample`.) -/
theorem claim_C9_resolver_never_consumes_weekday (p : TimeInputPayload) (cur : DateTime) :
    convert_datetime_payload (eraseWeekdaysPayload p) cur =
      convert_datetime_payload p cur := by
  obtain ⟨ts, tr⟩ := p
  cases ts with
  | none =>
    cases tr with
    | none => rfl
    | some tr =>
      obtain ⟨sd, ed⟩ := tr
      cases sd
      cases ed
      rfl
  | some ts =>
    cases ts
    rfl

/-! ## Time-of-day preservation through the pipeline stages -/

theorem applyRelative_time_preserved {r : Option RelativeTime} {dt e : DateTime}
    (hh : ∀ rr, r = some rr → rr.hour = none ∧ rr.minute = none)
    (h : applyRelative r dt = some e) :
    e.hour = dt.hour ∧ e.minute = dt.minute ∧ e.second = dt.second := by
  match r with
  | none =>
    simp only [applyRelative] at h
    cases h
    exact ⟨rfl, rfl, rfl⟩
  | some rr =>
    obtain ⟨hrh, hrm⟩ := hh rr rfl
    simp only [applyRelative, Option.bind_eq_some] at h
    obtain ⟨d1, h1, d2, h2, d3, h3, d4, h4, h5⟩ := h
    rw [stepRelHour_none _ hrh] at h4
    cases h4
    rw [stepRelMinute_none _ hrm] at h5
    cases h5
    obtain ⟨a1, a2, a3⟩ := stepRelYear_time h1
    obtain ⟨b1, b2, b3⟩ := stepRelMonth_time h2
    obtain ⟨c1, c2, c3⟩ := stepRelDay_time h3
    omega

theorem applyAbsolute_time_preserved {a : Option AbsoluteTime} {dt e : DateTime}
    (hh : ∀ aa, a = some aa → aa.hour = none ∧ aa.minute = none)
    (h : applyAbsolute a dt = some e) :
    e.hour = dt.hour ∧ e.minute = dt.minute ∧ e.second = dt.second := by
  match a with
  | none =>
    simp only [applyAbsolute] at h
    cases h
    exact ⟨rfl, rfl, rfl⟩
  | some aa =>
    obtain ⟨hah, ham⟩ := hh aa rfl
    simp only [applyAbsolute, Option.bind_eq_some] at h
    obtain ⟨d1, h1, d2, h2, d3, h3, h4⟩ := h
    unfold stepAbsTime at h4
    rw [hah, ham] at h4
    cases h4
    obtain ⟨a1, a2, a3⟩ := stepAbsYear_time h1
    obtain ⟨b1, b2, b3⟩ := stepAbsMonth_time h2
    obtain ⟨c1, c2, c3⟩ := stepAbsDay_time h3
    omega

theorem expandBase_time_preserved {t : TimeSingle} {cur b : DateTime}
    (hnt : has_time_units (some t) = false)
    (h : expandBase t cur = some b) :
    b.hour = cur.hour ∧ b.minute = cur.minute ∧ b.second = cur.second := by
  have hx : ∀ (x : Option Int), x.isSome = false → x = none := by
    intro x h
    cases x
    · rfl
    · simp at h
  have hfields : (∀ rr, t.relative = some rr → rr.hour = none ∧ rr.minute = none) ∧
      (∀ aa, t.absolute = some aa → aa.hour = none ∧ aa.minute = none) := by
    unfold has_time_units at hnt
    dsimp only at hnt
    simp only [Bool.or_eq_false_iff] at hnt
    constructor
    · intro rr hrr
      simp only [hrr, Option.getD_some] at hnt
      exact ⟨hx _ hnt.1.2, hx _ hnt.2⟩
    · intro aa haa
      simp only [haa, Option.getD_some] at hnt
      exact ⟨hx _ hnt.1.1.1, hx _ hnt.1.1.2⟩
  simp only [expandBase, Option.bind_eq_some] at h
  obtain ⟨d1, h1, d2, h2, h3⟩ := h
  obtain ⟨a1, a2, a3⟩ := truncToSecond_time h1
  obtain ⟨b1, b2, b3⟩ := applyRelative_time_preserved hfields.1 h2
  obtain ⟨c1, c2, c3⟩ := applyAbsolute_time_preserved hfields.2 h3
  omega

/-- Claim C4: When any absolute hour or minute is present, hour and minute are
overwritten together and seconds are zeroed: an absolute hour with no
absolute minute sets the minute to 0; an absolute minute with no absolute
hour keeps the relative-adjusted hour (`dt` here is the value after the
relative shift, to which `applyAbsolute` is applied); both present overwrite
both; neither present leaves hour, minute and second untouched. -/
theorem claim_C4_hour_minute_overwritten_together (a : AbsoluteTime) (dt r : DateTime)
    (h : applyAbsolute (some a) dt = some r) :
    (∀ h0, a.hour = some h0 → a.minute = none →
        r.hour = h0 ∧ r.minute = 0 ∧ r.second = 0) ∧
    (∀ m0, a.minute = some m0 → a.hour = none →
        r.hour = dt.hour ∧ r.minute = m0 ∧ r.second = 0) ∧
    (∀ h0 m0, a.hour = some h0 → a.minute = some m0 →
        r.hour = h0 ∧ r.minute = m0 ∧ r.second = 0) ∧
    (a.hour = none → a.minute = none →
        r.hour = dt.hour ∧ r.minute = dt.minute ∧ r.second = dt.second) := by
  simp only [applyAbsolute, Option.bind_eq_some] at h
  obtain ⟨d1, h1, d2, h2, d3, h3, h4⟩ := h
  obtain ⟨a1, a2, a3⟩ := stepAbsYear_time h1
  obtain ⟨b1, b2, b3⟩ := stepAbsMonth_time h2
  obtain ⟨c1, c2, c3⟩ := stepAbsDay_time h3
  refine ⟨?_, ?_, ?_, ?_⟩
  · intro h0 hh hm
    unfold stepAbsTime at h4
    rw [hh, hm] at h4
    obtain ⟨_, rfl⟩ := ensureValid_eq_some.mp h4
    exact ⟨rfl, rfl, rfl⟩
  · intro m0 hm hh
    unfold stepAbsTime at h4
    rw [hh, hm] at h4
    obtain ⟨_, rfl⟩ := ensureValid_eq_some.mp h4
    exact ⟨by simp only [Option.getD_some]; omega, rfl, rfl⟩
  · intro h0 m0 hh hm
    unfold stepAbsTime at h4
    rw [hh, hm] at h4
    obtain ⟨_, rfl⟩ := ensureValid_eq_some.mp h4
    exact ⟨rfl, rfl, rfl⟩
  · intro hh hm
    unfold stepAbsTime at h4
    rw [hh, hm] at h4
    cases h4
    omega

/-- Witness for `claim_C4_hour_minute_overwritten_together`: absolute
`{hour: 5}` (no minute) applied to 2024-01-01T10:00:00 gives 05:00:00. -/
theorem claim_C4_hour_minute_overwritten_together_witness :
    (⟨2024, 1, 1, 5, 0, 0, 0⟩ : DateTime).hour = 5 ∧
    (⟨2024, 1, 1, 5, 0, 0, 0⟩ : DateTime).minute = 0 ∧
    (⟨2024, 1, 1, 5, 0, 0, 0⟩ : DateTime).second = 0 :=
  (claim_C4_hour_minute_overwritten_together ⟨none, none, none, some 5, none⟩
    curJan1 ⟨2024, 1, 1, 5, 0, 0, 0⟩ (by decide)).1 5 rfl rfl

/-- Claim C6: For every single-point spec without absolute or relative
hour/minute (and without the `now` flag), the resolver returns the exact
computed instant with the time of day carried over from the reference
instant — never a span expansion; in particular `{absolute month: 7,
day: 30}` at 2024-01-01T10:00:00 yields 2024-07-30T10:00:00. -/
theorem claim_C6_single_point_keeps_time_of_day :
    (∀ (t : TimeSingle) (cur : DateTime) (c : ComputedDateTime),
        (t.now == some true) = false → has_time_units (some t) = false →
        compute_date_time t cur = some c →
        ∃ d : DateTime, c = ⟨none, some (strftimeISO d)⟩ ∧
          d.hour = cur.hour ∧ d.minute = cur.minute ∧ d.second = cur.second) ∧
      compute_date_time specAbsJul30 curJan1 =
        some ⟨none, some "2024-07-30T10:00:00"⟩ := by
  constructor
  · intro t cur c hnow hnt h
    unfold compute_date_time at h
    rw [if_neg (by simp [hnow])] at h
    rw [Option.map_eq_some'] at h
    obtain ⟨d, hd, rfl⟩ := h
    refine ⟨d, rfl, ?_⟩
    have : computeDTCore t cur = expandBase t cur := rfl
    rw [this] at hd
    exact expandBase_time_preserved hnt hd
  · decide

/-- Witness for `claim_C6_single_point_keeps_time_of_day`: the spec
`{absolute month: 7, day: 30}` at 2024-01-01T10:00:00. -/
theorem claim_C6_single_point_keeps_time_of_day_witness :
    ∃ d : DateTime,
      (⟨none, some "2024-07-30T10:00:00"⟩ : ComputedDateTime) =
        ⟨none, some (strftimeISO d)⟩ ∧
      d.hour = curJan1.hour ∧ d.minute = curJan1.minute ∧ d.second = curJan1.second :=
  claim_C6_single_point_keeps_time_of_day.1 specAbsJul30 curJan1
    ⟨none, some "2024-07-30T10:00:00"⟩ (by decide) (by decide) (by decide)

/-! ## Emptiness characterization -/

theorem opt_isSome_false_iff {α : Type} (x : Option α) : x.isSome = false ↔ x = none := by
  cases x <;> simp

theorem anyAbsSet_false_iff (a : AbsoluteTime) :
    anyAbsSet a = false ↔ a = AbsoluteTime.empty := by
  obtain ⟨y, mo, d, h, mi⟩ := a
  simp [anyAbsSet, AbsoluteTime.empty, Bool.or_eq_false_iff, opt_isSome_false_iff,
    and_assoc]

theorem anyRelSet_false_iff (r : RelativeTime) :
    anyRelSet r = false ↔ r = RelativeTime.empty := by
  obtain ⟨y, mo, d, h, mi⟩ := r
  simp [anyRelSet, RelativeTime.empty, Bool.or_eq_false_iff, opt_isSome_false_iff,
    and_assoc]

theorem is_empty_iff_spec (t : TimeSingle) :
    is_empty_time_object (some t) = true ↔ emptyTimeObjectSpec t := by
  obtain ⟨ab, rl, nw, wd⟩ := t
  unfold is_empty_time_object emptyTimeObjectSpec
  dsimp only
  have habs : ∀ a : AbsoluteTime, (anyAbsSet a = true) ↔ ¬(a = AbsoluteTime.empty) := by
    intro a
    rw [← anyAbsSet_false_iff]
    cases anyAbsSet a <;> simp
  have hrel : ∀ r : RelativeTime, (anyRelSet r = true) ↔ ¬(r = RelativeTime.empty) := by
    intro r
    rw [← anyRelSet_false_iff]
    cases anyRelSet r <;> simp
  cases ab <;> cases rl <;>
    (split_ifs with h1 h2 h3 <;>
      simp_all [beq_iff_eq, habs, hrel])

/-- Claim C7: For every payload respecting the model invariant (not both
`time_single` and `time_range` set), whenever `convert_datetime_payload`
returns, it returns `parsable = false` exactly when (a) neither
`time_single` nor `time_range` is present, (b) `time_single` is present but
empty, or (c) `time_range` is present with both endpoints empty — where a
time object is empty iff `now` is not set (to true) and every absolute and
relative field is unset, so `now = true` always counts as non-empty; a
reason string accompanies `parsable = false` and is absent otherwise. -/
theorem claim_C7_parsable_characterization (p : TimeInputPayload) (cur : DateTime)
    (r : TimeConvertedPayload)
    (hexcl : ¬(p.time_single ≠ none ∧ p.time_range ≠ none))
    (h : convert_datetime_payload p cur = some r) :
    (r.parsable = false ↔
      (p.time_single = none ∧ p.time_range = none) ∨
      (∃ ts, p.time_single = some ts ∧ emptyTimeObjectSpec ts) ∨
      (∃ tr, p.time_range = some tr ∧ emptyTimeObjectSpec tr.start_date ∧
        emptyTimeObjectSpec tr.end_date)) ∧
    (r.parsable = false → r.reason.isSome = true) ∧
    (r.parsable = true → r.reason = none) := by
  obtain ⟨ts?, tr?⟩ := p
  cases ts? with
  | some ts =>
    have htrn : tr? = none := by
      by_contra hc
      exact hexcl ⟨by simp, hc⟩
    subst htrn
    unfold convert_datetime_payload at h
    dsimp only at h
    by_cases he : is_empty_time_object (some ts) = true
    · rw [if_pos he] at h
      cases h
      exact ⟨iff_of_true rfl
          (Or.inr (Or.inl ⟨ts, rfl, (is_empty_iff_spec ts).mp he⟩)),
        fun _ => rfl, fun hc => nomatch hc⟩
    · rw [if_neg he] at h
      rw [Option.map_eq_some'] at h
      obtain ⟨c, hc, rfl⟩ := h
      refine ⟨iff_of_false (by simp) ?_, fun hc => by simp at hc, fun _ => rfl⟩
      rintro (⟨hc1, _⟩ | ⟨ts2, hts2, hemp⟩ | ⟨tr2, htr2, _⟩)
      · exact nomatch hc1
      · cases hts2
        exact absurd ((is_empty_iff_spec ts).mpr hemp) he
      · exact nomatch htr2
  | none =>
    cases tr? with
    | none =>
      unfold convert_datetime_payload at h
      dsimp only at h
      cases h
      exact ⟨iff_of_true rfl (Or.inl ⟨rfl, rfl⟩), fun _ => rfl, fun hc => nomatch hc⟩
    | some tr =>
      unfold convert_datetime_payload at h
      dsimp only at h
      simp only [Option.bind_eq_some] at h
      obtain ⟨sc, hsc, ec, hec, hr⟩ := h
      cases hE : (is_empty_time_object (some tr.start_date) &&
          is_empty_time_object (some tr.end_date)) with
      | true =>
        rw [hE] at hr
        cases hr
        have hboth := Bool.and_eq_true_iff.mp hE
        exact ⟨iff_of_true rfl
            (Or.inr (Or.inr ⟨tr, rfl, (is_empty_iff_spec _).mp hboth.1,
              (is_empty_iff_spec _).mp hboth.2⟩)),
          fun _ => rfl, fun hc => nomatch hc⟩
      | false =>
        rw [hE] at hr
        cases hr
        refine ⟨iff_of_false (by simp) ?_, fun hc => by simp at hc, fun _ => rfl⟩
        rintro (⟨_, hc2⟩ | ⟨ts2, hts2, _⟩ | ⟨tr2, htr2, h1, h2⟩)
        · exact nomatch hc2
        · exact nomatch hts2
        · cases htr2
          rw [(is_empty_iff_spec _).mpr h1, (is_empty_iff_spec _).mpr h2] at hE
          exact nomatch hE

/-- Witness for `claim_C7_parsable_characterization`: a payload whose
`time_single` is present but empty is rejected as unparsable. -/
theorem claim_C7_parsable_characterization_witness :
    ((false = false) ↔
      ((some specEmpty = none ∧ (none : Option TimeRange) = none) ∨
      (∃ ts, some specEmpty = some ts ∧ emptyTimeObjectSpec ts) ∨
      (∃ tr, (none : Option TimeRange) = some tr ∧ emptyTimeObjectSpec tr.start_date ∧
        emptyTimeObjectSpec tr.end_date))) ∧
    (false = false → (some "time_single is empty or contains no datetime data").isSome = true) ∧
    (false = true → some "time_single is empty or contains no datetime data" = none) :=
  claim_C7_parsable_characterization ⟨some specEmpty, none⟩ curJan1
    ⟨false, some "time_single is empty or contains no datetime data", none, none⟩
    (by simp) (by decide)

/-- Claim C5 is false on the code as universally stated: the spec
`{relative day = 0}` specifies a day field, yet the end endpoint resolves to
the current moment 07:30:15 — not 23:59:59 — because of the day-zero special
case. -/
theorem claim_C5_counterexample :
    build_expanded_endpoint (some specDayZero) false curJun3 =
      some ⟨none, some "2024-06-03T07:30:15"⟩ ∧
    (⟨none, some "2024-06-03T07:30:15"⟩ : ComputedDateTime) ≠
      ⟨none, some "2024-06-03T23:59:59"⟩ := by
  decide

/-- Claim C5 (amended): for every range endpoint without absolute or relative
hour/minute, writing `b` for the instant after relative shifts and absolute
overrides: unless the spec is exactly a relative day offset of 0 with no
other date field (the special case, which returns `b` itself), a day-level
field expands to 00:00:00 / 23:59:59 of the computed day, else a month-level
field to the first day at 00:00:00 / the last day (first of next month minus
one day) at 23:59:59, else a year-level field to Jan 1 00:00:00 / Dec 31
23:59:59, else the boundaries of the full current day; concretely, the range
start `{absolute month:7, day:30}` / end `{absolute month:7, day:31}`
resolves to 2024-07-30T00:00:00 and 2024-07-31T23:59:59. -/
theorem claim_C5_span_expansion :
    (∀ (t : TimeSingle) (cur b : DateTime) (s : Bool),
        has_time_units (some t) = false →
        expandBase t cur = some b →
        buildExpandedCore (some t) s cur =
          (if isDayZeroSpecial t then some b else expandedSpecC5 t b s)) ∧
      convert_datetime_payload ⟨none, some ⟨specAbsJul30, specAbsJul31⟩⟩ curJan1 =
        some ⟨true, none, none,
          some (⟨none, some "2024-07-30T00:00:00"⟩, ⟨none, some "2024-07-31T23:59:59"⟩)⟩ := by
  constructor
  · intro t cur b s hnt hb
    have hbv := expandBase_valid hb
    show (expandBase t cur).bind _ = _
    rw [hb, Option.some_bind]
    by_cases hsp : isDayZeroSpecial t = true
    · simp [hsp]
    · rw [if_neg hsp, if_neg hsp]
      unfold expandedSpecC5
      by_cases hd : specHasDay t = true
      · rw [if_pos hd, if_pos hd]
        cases s
        · simp [replace_end_of_day hbv]
        · simp [replace_start_of_day hbv]
      · rw [if_neg hd, if_neg hd]
        by_cases hm : specHasMonth t = true
        · rw [if_pos hm, if_pos hm]
          cases s
          · simp only [Bool.false_eq_true, if_false]
            cases hld : lastDayRoll b with
            | none => simp
            | some ld =>
              have hsound := lastDayRoll_sound hbv hld
              subst hsound
              simp [replace_last_of_month hbv]
          · simp [replace_first_of_month hbv]
        · rw [if_neg hm, if_neg hm]
          by_cases hy2 : specHasYear t = true
          · rw [if_pos hy2, if_pos hy2]
            cases s
            · simp [replace_last_of_year hbv]
            · simp [replace_first_of_year hbv]
          · rw [if_neg hy2, if_neg hy2]
            cases s
            · simp [replace_end_of_day hbv]
            · simp [replace_start_of_day hbv]
  · decide

/-- Witness for `claim_C5_span_expansion`: the month-only spec
`{absolute month: 7}` at 2024-01-01T10:00:00 with `b` = 2024-07-01T10:00:00;
since it is not the day-zero special case, the endpoint expands per the
month branch. -/
theorem claim_C5_span_expansion_witness :
    buildExpandedCore (some ⟨some ⟨none, some 7, none, none, none⟩, none, none, none⟩)
        false curJan1 =
      (if isDayZeroSpecial ⟨some ⟨none, some 7, none, none, none⟩, none, none, none⟩
        then some ⟨2024, 7, 1, 10, 0, 0, 0⟩
        else expandedSpecC5 ⟨some ⟨none, some 7, none, none, none⟩, none, none, none⟩
          ⟨2024, 7, 1, 10, 0, 0, 0⟩ false) :=
  claim_C5_span_expansion.1 ⟨some ⟨none, some 7, none, none, none⟩, none, none, none⟩
    curJan1 ⟨2024, 7, 1, 10, 0, 0, 0⟩ false (by decide) (by decide)
